import Mathlib

/-!
Verification development for the nRF Gate Controller BLE integration
(custom_components/nrf_gate_controller).  The Python client
`GateControllerBLE` in `ble_client.py` and the coordinator in
`coordinator.py` are shallowly embedded as pure Lean functions over an
explicit client state and a fake BLE transport.  Asynchronous sleeps are
recorded as events (milliseconds) in the state; transport interactions
(connectivity queries, characteristic probes, writes, subscriptions) are
answered by the fake transport and recorded in the state, mirroring the
control flow of the source line by line.
-/
namespace NrfGate

/-- Fake BLE transport (the collaborator contract of `bleak` / the Home
Assistant Bluetooth API as used by `ble_client.py`).  `lossTime` says after
how many connectivity queries the transport reports the link as lost
(`none` = never lost); `charsAt i` says whether the probe at attempt `i`
finds both NUS characteristics enumerable; the remaining flags say whether
the transport-level connect, the notification subscription and a
characteristic write succeed.  `writeLoss` marks a failed write whose error
message looks like a disconnection. -/
structure Transport where
  deviceFound : Bool := true
  connectOk : Bool := true
  lossTime : Option Nat := none
  charsAt : Nat → Bool := fun _ => true
  subscribeOk : Bool := true
  writeOk : Bool := true
  writeLoss : Bool := false

/-- Whether the transport still reports the link as up at the `i`-th
connectivity query. -/
def Transport.connectedNow (tr : Transport) (i : Nat) : Bool :=
  match tr.lossTime with
  | none => true
  | some k => decide (i < k)

/-- Observable state of a `GateControllerBLE` instance: `hasClient` models
`self.client is not None`, `connected` models the `self._connected` flag.
`queries` counts transport connectivity queries (used to index `lossTime`),
`probes` counts characteristic-probe attempts of the security wait,
`subscribed` counts `start_notify` calls, `unsubscribes` counts
`stop_notify` calls, `writes` records every frame written to the outbound
characteristic (as byte lists) and `sleeps` records every `asyncio.sleep`
in milliseconds, in order. -/
structure BLEState where
  hasClient : Bool := false
  connected : Bool := false
  queries : Nat := 0
  probes : Nat := 0
  subscribed : Nat := 0
  unsubscribes : Nat := 0
  writes : List (List Nat) := []
  sleeps : List Nat := []
deriving DecidableEq

/-- `GateControllerBLE._is_connected`: requires a client and the
`_connected` flag, then re-checks the transport's live `is_connected`
property (counted in `queries`). -/
def is_connected (tr : Transport) (s : BLEState) : Bool × BLEState :=
  if s.hasClient && s.connected then
    (tr.connectedNow s.queries, {s with queries := s.queries + 1})
  else (false, s)

/-- An `asyncio.sleep` of `ms` milliseconds, recorded in the state. -/
def sleep (s : BLEState) (ms : Nat) : BLEState :=
  {s with sleeps := s.sleeps ++ [ms]}

/-- Decimal digits of a natural number as characters, fuel-indexed so that
the recursion is structural (fuel `n + 1` always suffices for `n`). -/
def natCharsAux : Nat → Nat → List Char
  | 0, _ => []
  | fuel + 1, n =>
    if n < 10 then [Char.ofNat (48 + n)]
    else natCharsAux fuel (n / 10) ++ [Char.ofNat (48 + n % 10)]

/-- Decimal rendering of a natural number, as Python's `str` produces it. -/
def natChars (n : Nat) : List Char := natCharsAux (n + 1) n

/-- Decimal rendering of an integer, as Python's `json.dumps` renders an
`int` value. -/
def intChars (i : Int) : List Char :=
  if i < 0 then '-' :: natChars i.natAbs else natChars i.natAbs

/-- The outgoing frame of `send_command`:
`json.dumps(\x7b"cmd": command\x7d) + "*\n"`, whose `json.dumps` rendering
is the brace-delimited object with a single `"cmd"` member and a space
after the colon. -/
def cmdFrame (command : Int) : List Char :=
  "\x7b\"cmd\": ".toList ++ intChars command ++ "\x7d*\n".toList

/-- UTF-8 bytes of an ASCII string (every frame this client sends is pure
ASCII, where UTF-8 coincides with the character codes). -/
def strBytes (s : String) : List Nat := s.toList.map Char.toNat

/-- `GateControllerBLE.send_command`: refuses (returning `None`, modelled
as `false`) without any write when `_is_connected` fails, clearing the
`_connected` flag; otherwise encodes the command frame, writes it to the
outbound characteristic and settles for 0.5 s.  A failed write is caught;
if its error text looks like a disconnection the `_connected` flag is
cleared. -/
def send_command (tr : Transport) (command : Int) (s : BLEState) :
    Bool × BLEState :=
  let chk := is_connected tr s
  if !chk.1 then (false, {chk.2 with connected := false})
  else if tr.writeOk then
    let s2 := {chk.2 with writes := chk.2.writes ++ [(cmdFrame command).map Char.toNat]}
    (true, sleep s2 500)
  else
    (false, if tr.writeLoss then {chk.2 with connected := false} else chk.2)

/-- `GateControllerBLE.get_state`: `send_command(17)`. -/
def get_state (tr : Transport) (s : BLEState) : Bool × BLEState :=
  send_command tr 17 s

/-- `GateControllerBLE.open_gate`: `send_command(1)`. -/
def open_gate (tr : Transport) (s : BLEState) : Bool × BLEState :=
  send_command tr 1 s

/-- `GateControllerBLE.close_gate`: `send_command(3)`. -/
def close_gate (tr : Transport) (s : BLEState) : Bool × BLEState :=
  send_command tr 3 s

/-- `GateControllerBLE.stop_gate`: `send_command(2)`. -/
def stop_gate (tr : Transport) (s : BLEState) : Bool × BLEState :=
  send_command tr 2 s

/-- The `mode_commands` lookup table of `set_working_mode`
(`CMD_WORKING_MODE_1 .. CMD_WORKING_MODE_6` from `const.py`). -/
def mode_commands (working_mode : Int) : Option Int :=
  if working_mode = 1 then some 11
  else if working_mode = 2 then some 12
  else if working_mode = 3 then some 13
  else if working_mode = 4 then some 14
  else if working_mode = 5 then some 15
  else if working_mode = 6 then some 16
  else none

/-- `GateControllerBLE.set_working_mode`: rejects a mode outside the table
(returning `None`, modelled as `false`) before any I/O, otherwise sends the
mapped command code. -/
def set_working_mode (tr : Transport) (working_mode : Int) (s : BLEState) :
    Bool × BLEState :=
  match mode_commands working_mode with
  | none => (false, s)
  | some c => send_command tr c s

/-- A client state with a live client and the `_connected` flag set, as left
by a successful `connect` (write log still empty). -/
def readyS : BLEState := {hasClient := true, connected := true}

/-- `GateControllerBLE.disconnect`: only acts when a client is present and
the `_connected` flag is set; then it best-effort checks the transport and
stops notifications, checks again and closes the transport session (both
teardown steps may fail, errors are caught and logged), and in a `finally`
clause clears the `_connected` flag and nulls the client reference.  When
the client is absent or the flag is already clear the whole body is
skipped and the state is untouched. -/
def disconnect (tr : Transport) (s : BLEState) : BLEState :=
  if s.hasClient && s.connected then
    let s1 := {s with queries := s.queries + 1,
                      unsubscribes := if tr.connectedNow s.queries then
                        s.unsubscribes + 1 else s.unsubscribes}
    let s2 := {s1 with queries := s1.queries + 1}
    {s2 with connected := false, hasClient := false}
  else s

/-- The retry loop of `GateControllerBLE._wait_for_security_ready`,
structurally recursing on the number of remaining attempts (the Python
`for attempt in range(max_attempts)` loop, entered with
`remaining = max_attempts`, `attempt = 0`).  Before each attempt the
connectivity is re-checked; a lost connection clears the `_connected` flag
and aborts with `false`.  A probe that finds both NUS characteristics
returns `true` immediately; a failed probe sleeps 0.5 s unless it was the
last attempt.  After the last attempt a final connectivity check either
clears the flag and returns `false`, or logs a warning and returns `false`
while proceeding (soft timeout). -/
def securityAttempts (tr : Transport) : Nat → Nat → BLEState → Bool × BLEState
  | 0, _, s =>
    let chk := is_connected tr s
    if !chk.1 then (false, {chk.2 with connected := false})
    else (false, chk.2)
  | remaining + 1, attempt, s =>
    let chk := is_connected tr s
    if !chk.1 then (false, {chk.2 with connected := false})
    else
      let s2 := {chk.2 with probes := chk.2.probes + 1}
      if tr.charsAt attempt then (true, s2)
      else
        securityAttempts tr remaining (attempt + 1)
          (if remaining > 0 then sleep s2 500 else s2)

/-- `GateControllerBLE._wait_for_security_ready` with the default
arguments (10 attempts, 0.5 s apart): an entry connectivity check that
returns `false` without clearing the flag, then a 0.6 s settle delay, then
the retry loop. -/
def wait_for_security_ready (tr : Transport) (s : BLEState) : Bool × BLEState :=
  let chk := is_connected tr s
  if !chk.1 then (false, chk.2)
  else securityAttempts tr 10 0 (sleep chk.2 600)

/-- `GateControllerBLE.connect`, from the point where the Home Assistant
context is available: resolve the device (failure returns `false`), open
the transport-level connection (a raised error is caught and returns
`false` with the flag cleared), set the `_connected` flag, run the
security wait, re-check connectivity (clearing the flag and failing if
lost), re-check once more just before subscribing, then `start_notify`;
a failed subscription clears the flag, calls `disconnect` best-effort and
returns `false`.  The security wait's soft timeout does not prevent
success. -/
def connect (tr : Transport) (s : BLEState) : Bool × BLEState :=
  if !tr.deviceFound then (false, s)
  else
    let s0 := {s with hasClient := true}
    if !tr.connectOk then (false, {s0 with connected := false})
    else
      let w := wait_for_security_ready tr {s0 with connected := true}
      let chkA := is_connected tr w.2
      if !chkA.1 then (false, {chkA.2 with connected := false})
      else
        let chkB := is_connected tr chkA.2
        if !chkB.1 then (false, {chkB.2 with connected := false})
        else
          let s5 := {chkB.2 with subscribed := chkB.2.subscribed + 1}
          if tr.subscribeOk then (true, s5)
          else (false, disconnect tr {s5 with connected := false})

/-- A transport that reports the NUS characteristics unavailable for the
first `N` probes of the security wait, then available. -/
def trEarly (N : Nat) : Transport := {charsAt := fun i => decide (N ≤ i)}

/-- A transport whose characteristics never become enumerable. -/
def trNever : Transport := {charsAt := fun _ => false}

/-- A transport that reports the link lost from the `k`-th connectivity
query onward, with characteristics never enumerable. -/
def trLost (k : Nat) : Transport := {lossTime := some k, charsAt := fun _ => false}

/-- Whether a byte is a UTF-8 continuation byte (0x80..0xBF). -/
def utf8Cont (b : Nat) : Bool := 128 ≤ b && b ≤ 191

/-- Strict UTF-8 decoding of a byte list, fuel-indexed so the recursion is
structural; fuel equal to the list length always suffices since every step
consumes at least one byte.  Models Python's `bytes.decode("utf-8")`:
overlong encodings, surrogates and out-of-range lead bytes are rejected
(`none` models a raised `UnicodeDecodeError`). -/
def utf8DecodeAux : Nat → List Nat → Option (List Char)
  | _, [] => some []
  | 0, _ :: _ => none
  | fuel + 1, b :: bs =>
    if b ≤ 127 then
      (utf8DecodeAux fuel bs).map (fun cs => Char.ofNat b :: cs)
    else if 194 ≤ b && b ≤ 223 then
      match bs with
      | b2 :: bs2 =>
        if utf8Cont b2 then
          (utf8DecodeAux fuel bs2).map
            (fun cs => Char.ofNat ((b - 192) * 64 + (b2 - 128)) :: cs)
        else none
      | [] => none
    else if 224 ≤ b && b ≤ 239 then
      match bs with
      | b2 :: b3 :: bs3 =>
        let lo2 : Nat := if b = 224 then 160 else 128
        let hi2 : Nat := if b = 237 then 159 else 191
        if (lo2 ≤ b2 && b2 ≤ hi2) && utf8Cont b3 then
          (utf8DecodeAux fuel bs3).map
            (fun cs => Char.ofNat ((b - 224) * 4096 + (b2 - 128) * 64 + (b3 - 128)) :: cs)
        else none
      | _ => none
    else if 240 ≤ b && b ≤ 244 then
      match bs with
      | b2 :: b3 :: b4 :: bs4 =>
        let lo2 : Nat := if b = 240 then 144 else 128
        let hi2 : Nat := if b = 244 then 143 else 191
        if ((lo2 ≤ b2 && b2 ≤ hi2) && utf8Cont b3) && utf8Cont b4 then
          (utf8DecodeAux fuel bs4).map
            (fun cs => Char.ofNat
              ((b - 240) * 262144 + (b2 - 128) * 4096 + (b3 - 128) * 64 + (b4 - 128)) :: cs)
        else none
      | _ => none
    else none

/-- UTF-8 decoding of a raw notification payload. -/
def utf8Decode (raw : List Nat) : Option (List Char) :=
  utf8DecodeAux raw.length raw

/-- The `message.split("*")[0]` step of `_notification_handler`: everything
from the first `*` onward is dropped (when no `*` is present the message is
unchanged, exactly as `split` behaves). -/
def splitStar (cs : List Char) : List Char := cs.takeWhile (fun c => c != '*')

/-- Skip JSON insignificant whitespace, as `json.loads` does. -/
def skipWs : List Char → List Char
  | c :: cs =>
    if c = ' ' || c = '\t' || c = '\n' || c = '\r' then skipWs cs else c :: cs
  | [] => []

/-- The opening brace character (written via its code point 123). -/
def lbrace : Char := Char.ofNat 123

/-- The closing brace character (written via its code point 125). -/
def rbrace : Char := Char.ofNat 125

/-- Parse the remainder of a JSON string after the opening quote: plain
characters up to the closing quote (escape sequences are outside the
protocol's fragment and rejected). -/
def parseKeyChars : List Char → Option (List Char × List Char)
  | c :: cs =>
    if c = '"' then some ([], cs)
    else if c = '\\' then none
    else (parseKeyChars cs).map (fun p => (c :: p.1, p.2))
  | [] => none

/-- Parse a JSON string token (the member key). -/
def parseKey : List Char → Option (List Char × List Char)
  | c :: cs => if c = '"' then parseKeyChars cs else none
  | [] => none

/-- ASCII decimal digit test. -/
def isDigit (c : Char) : Bool := 48 ≤ c.toNat && c.toNat ≤ 57

/-- Consume a run of decimal digits, accumulating their value. -/
def parseDigits : List Char → Nat → Nat × List Char
  | c :: cs, acc =>
    if isDigit c then parseDigits cs (acc * 10 + (c.toNat - 48)) else (acc, c :: cs)
  | [], acc => (acc, [])

/-- Whether a character list does not start with a digit (used to state
where a digit run must stop). -/
def startsNondigit : List Char → Bool
  | [] => true
  | c :: _ => !isDigit c

/-- Parse a JSON integer token: an optional minus sign followed by at
least one digit. -/
def parseIntTok (cs : List Char) : Option (Int × List Char) :=
  match cs with
  | [] => none
  | c :: rest =>
    if c = '-' then
      match rest with
      | [] => none
      | c2 :: _ =>
        if isDigit c2 then
          let p := parseDigits rest 0
          some (-(p.1 : Int), p.2)
        else none
    else if isDigit c then
      let p := parseDigits (c :: rest) 0
      some ((p.1 : Int), p.2)
    else none

/-- Parse one `"key": int` member. -/
def parsePair (cs : List Char) : Option ((List Char × Int) × List Char) :=
  match parseKey cs with
  | none => none
  | some kp =>
    match skipWs kp.2 with
    | c :: cs2 =>
      if c = ':' then
        match parseIntTok (skipWs cs2) with
        | none => none
        | some vp => some ((kp.1, vp.1), vp.2)
      else none
    | [] => none

/-- Parse a comma-separated member list, fuel-indexed (fuel bounds the
number of members; the input length always suffices since every member
consumes at least one character). -/
def parseMembers : Nat → List Char → Option (List (List Char × Int) × List Char)
  | 0, _ => none
  | fuel + 1, cs =>
    match parsePair cs with
    | none => none
    | some pp =>
      match skipWs pp.2 with
      | c :: cs2 =>
        if c = ',' then
          match parseMembers fuel (skipWs cs2) with
          | none => none
          | some mp => some (pp.1 :: mp.1, mp.2)
        else some ([pp.1], c :: cs2)
      | [] => some ([pp.1], [])

/-- Restricted integer-object codec used for the canonical-frame
reasoning: parses a single top-level object whose member values are
integer literals, with arbitrary insignificant whitespace.  It agrees
with Python's `json.loads` on every canonical device frame; the faithful
model of `json.loads` over full JSON (floats, strings, arrays, nesting,
strict number and string grammars) is `json_loads_py` below. -/
def json_loads (cs : List Char) : Option (List (List Char × Int)) :=
  match skipWs cs with
  | c :: cs1 =>
    if c = lbrace then
      match skipWs cs1 with
      | c2 :: cs3 =>
        if c2 = rbrace then
          if skipWs cs3 = [] then some [] else none
        else
          match parseMembers (c2 :: cs3).length (c2 :: cs3) with
          | none => none
          | some mp =>
            match skipWs mp.2 with
            | c3 :: cs4 =>
              if c3 = rbrace then
                if skipWs cs4 = [] then some mp.1 else none
              else none
            | [] => none
      | [] => none
    else none
  | [] => none

/-- Membership/lookup on a parsed JSON object, with Python's
last-duplicate-wins dictionary semantics. -/
def jGet (pairs : List (List Char × Int)) (key : List Char) : Option Int :=
  match pairs.reverse.find? (fun p => p.1 == key) with
  | some p => some p.2
  | none => none

/-- The characters of the JSON key "state". -/
def stateKey : List Char := ['s', 't', 'a', 't', 'e']

/-- The characters of the JSON key "mode". -/
def modeKey : List Char := ['m', 'o', 'd', 'e']

/-- The `if self._state_callback: self._state_callback(state, mode)` step
of `_notification_handler`: no registered callback means nothing happens;
a registered one is invoked with the two integers.  The callback is
modelled as either completing with a replacement snapshot or raising (an
exception that escapes the inner JSON handler). -/
def handlerCall : Option (Int → Int → Except String (Option (Int × Int))) →
    Option (Int × Int) → Int → Int → Except String (Option (Int × Int))
  | none, snap, _, _ => Except.ok snap
  | some f, _, st, md => f st md

/-- The key extraction of `_notification_handler` after a successful JSON
parse: both the `state` and `mode` values must be present for the
callback step to run; otherwise the frame is only logged. -/
def handlerInvoke (cb : Option (Int → Int → Except String (Option (Int × Int))))
    (snap : Option (Int × Int)) :
    Option Int → Option Int → Except String (Option (Int × Int))
  | some st, some md => handlerCall cb snap st md
  | some _, none => Except.ok snap
  | none, _ => Except.ok snap

/-- The key check of `_notification_handler` on the parsed JSON: a parse
failure was caught by the inner `except json.JSONDecodeError` handler
(log only, snapshot untouched), and an object missing `state` or `mode`
is only logged. -/
def handlerKeys (cb : Option (Int → Int → Except String (Option (Int × Int))))
    (snap : Option (Int × Int)) :
    Option (List (List Char × Int)) → Except String (Option (Int × Int))
  | none => Except.ok snap
  | some obj => handlerInvoke cb snap (jGet obj stateKey) (jGet obj modeKey)

/-- The decode step of `_notification_handler`: a UTF-8 decode failure
raises (`UnicodeDecodeError`), anything else truncates at the first `*`
and goes through the JSON parse and key check. -/
def handlerDecoded (cb : Option (Int → Int → Except String (Option (Int × Int))))
    (snap : Option (Int × Int)) :
    Option (List Char) → Except String (Option (Int × Int))
  | none => Except.error "UnicodeDecodeError"
  | some msg => handlerKeys cb snap (json_loads (splitStar msg))

/-- The body of `GateControllerBLE._notification_handler` without its
outer catch-all, as an `Except`: an error is an exception that would
escape to the outer handler (bad UTF-8, or the callback raising). -/
def handlerBody (cb : Option (Int → Int → Except String (Option (Int × Int))))
    (snap : Option (Int × Int)) (raw : List Nat) :
    Except String (Option (Int × Int)) :=
  handlerDecoded cb snap (utf8Decode raw)

/-- The outer `try/except Exception` of `_notification_handler`: any
escaped exception is logged and swallowed, leaving the snapshot
unchanged. -/
def handlerCatch (snap : Option (Int × Int)) :
    Except String (Option (Int × Int)) → Option (Int × Int)
  | Except.ok snap2 => snap2
  | Except.error _ => snap

/-- `GateControllerBLE._notification_handler`: the body wrapped in the
outer catch-all.  This embedding runs over the restricted integer-object
codec; the handler re-embedded over the faithful `json.loads` model is
`notification_handler_full` below. -/
def notification_handler (cb : Option (Int → Int → Except String (Option (Int × Int))))
    (snap : Option (Int × Int)) (raw : List Nat) : Option (Int × Int) :=
  handlerCatch snap (handlerBody cb snap raw)

/-- The coordinator's `_state_update_callback` as registered via
`set_state_callback`: replaces the snapshot with the received pair (via
`async_set_updated_data`) and completes normally. -/
def state_update_cb : Int → Int → Except String (Option (Int × Int)) :=
  fun st md => Except.ok (some (st, md))

/-- The characters of a state frame before the first integer:
a brace, the quoted "state" key and a colon. -/
def framePre : List Char := [lbrace, '"', 's', 't', 'a', 't', 'e', '"', ':']

/-- The characters of a state frame between the two integers:
a comma, the quoted "mode" key and a colon. -/
def frameMid : List Char := [',', '"', 'm', 'o', 'd', 'e', '"', ':']

/-- The member region of a canonical state frame (everything after the
opening brace). -/
def memT (st md : Int) : List Char :=
  '"' :: 's' :: 't' :: 'a' :: 't' :: 'e' :: '"' :: ':' ::
    (intChars st ++ (frameMid ++ (intChars md ++ [rbrace])))

/-- The canonical device state frame: the brace-delimited JSON object
with integer members "state" and "mode", no whitespace, as the firmware
emits it. -/
def frameChars (st md : Int) : List Char :=
  framePre ++ (intChars st ++ (frameMid ++ (intChars md ++ [rbrace])))

/-- The environment of one coordinator poll cycle
(`GateControllerCoordinator._async_update_data`): whether the
`ble_client.connect()` call raises, whether the `ble_client.get_state()`
call raises, and the state notifications delivered asynchronously by the
transport while the cycle sleeps. -/
structure PollEnv where
  connectRaises : Bool := false
  getStateRaises : Bool := false
  interim : List (Int × Int) := []

/-- The coordinator's `_state_update_callback` as a snapshot transformer:
`async_set_updated_data` replaces the held data with the received pair. -/
def state_update_callback (_prev : Option (Int × Int)) (st md : Int) :
    Option (Int × Int) := some (st, md)

/-- `GateControllerCoordinator._async_update_data` over the coordinator's
held snapshot (`self.data`; `none` models "no data yet", returned to the
caller as the all-`None` record): reconnect if not connected, register the
state callback, issue `get_state`, sleep 0.5 s (during which interim
notifications may replace the snapshot via the callback), then return the
latest snapshot.  Any exception raised along the way is converted to
`UpdateFailed` and the held snapshot is not touched. -/
def async_update_data (env : PollEnv) (connected : Bool)
    (data : Option (Int × Int)) :
    Except String (Option (Int × Int)) × Option (Int × Int) :=
  if !connected && env.connectRaises then (Except.error "UpdateFailed", data)
  else if env.getStateRaises then (Except.error "UpdateFailed", data)
  else
    let d2 := env.interim.foldl (fun acc p => state_update_callback acc p.1 p.2) data
    (Except.ok d2, d2)

/-- A parsed Python JSON value, as `json.loads` produces it: integers,
non-integral numbers (floats from fraction/exponent literals, NaN and
Infinity — their numeric value is abstracted, since the handler never
branches on it), strings (as code-point lists, so that lone surrogates
from `\uXXXX` escapes are representable), booleans, null, arrays and
objects. -/
inductive JValue where
  | jint (i : Int)
  | jnum
  | jstr (s : List Nat)
  | jbool (b : Bool)
  | jnull
  | jarr (elems : List JValue)
  | jobj (members : List (List Nat × JValue))

/-- The code points of the key "state". -/
def stateKeyU : List Nat := [115, 116, 97, 116, 101]

/-- The code points of the key "mode". -/
def modeKeyU : List Nat := [109, 111, 100, 101]

/-- Value of a hexadecimal digit character, as `_decode_uXXXX` accepts
them (0-9, a-f, A-F only). -/
def hexVal (c : Char) : Option Nat :=
  if 48 ≤ c.toNat ∧ c.toNat ≤ 57 then some (c.toNat - 48)
  else if 97 ≤ c.toNat ∧ c.toNat ≤ 102 then some (c.toNat - 87)
  else if 65 ≤ c.toNat ∧ c.toNat ≤ 70 then some (c.toNat - 55)
  else none

/-- The body of `py_scanstring` after the opening quote, fuel-indexed
(fuel one past the input length always suffices, every step consuming at
least one character): plain characters up to the closing quote, with raw
control characters below 0x20 rejected (`strict=True`); the escapes
`\" \\ \/ \b \f \n \r \t` and `\uXXXX` with exactly four hex digits; a
high surrogate followed by a `\uXXXX` low surrogate is combined into one
code point, a high surrogate followed by `\u` and four hex digits that
are not a low surrogate stays lone with the second escape rescanned, and
a high surrogate followed by `\u` without four valid hex digits is an
error; an unterminated string is an error. -/
def scanStringAux : Nat → List Char → Option (List Nat × List Char)
  | 0, _ => none
  | _ + 1, [] => none
  | fuel + 1, c :: cs =>
    if c = '"' then some ([], cs)
    else if c = '\\' then
      match cs with
      | [] => none
      | e :: cs2 =>
        if e = '"' then (scanStringAux fuel cs2).map (fun p => (34 :: p.1, p.2))
        else if e = '\\' then (scanStringAux fuel cs2).map (fun p => (92 :: p.1, p.2))
        else if e = '/' then (scanStringAux fuel cs2).map (fun p => (47 :: p.1, p.2))
        else if e = 'b' then (scanStringAux fuel cs2).map (fun p => (8 :: p.1, p.2))
        else if e = 'f' then (scanStringAux fuel cs2).map (fun p => (12 :: p.1, p.2))
        else if e = 'n' then (scanStringAux fuel cs2).map (fun p => (10 :: p.1, p.2))
        else if e = 'r' then (scanStringAux fuel cs2).map (fun p => (13 :: p.1, p.2))
        else if e = 't' then (scanStringAux fuel cs2).map (fun p => (9 :: p.1, p.2))
        else if e = 'u' then
          match cs2 with
          | h1 :: h2 :: h3 :: h4 :: cs3 =>
            match hexVal h1, hexVal h2, hexVal h3, hexVal h4 with
            | some a, some b, some c2, some d =>
              let uni := a * 4096 + b * 256 + c2 * 16 + d
              if 0xD800 ≤ uni ∧ uni ≤ 0xDBFF then
                match cs3 with
                | b1 :: b2 :: rest2 =>
                  if b1 = '\\' ∧ b2 = 'u' then
                    match rest2 with
                    | g1 :: g2 :: g3 :: g4 :: cs4 =>
                      match hexVal g1, hexVal g2, hexVal g3, hexVal g4 with
                      | some a2, some b3, some c3, some d2 =>
                        let uni2 := a2 * 4096 + b3 * 256 + c3 * 16 + d2
                        if 0xDC00 ≤ uni2 ∧ uni2 ≤ 0xDFFF then
                          (scanStringAux fuel cs4).map (fun p =>
                            ((0x10000 + (uni - 0xD800) * 1024 + (uni2 - 0xDC00)) :: p.1, p.2))
                        else
                          (scanStringAux fuel cs3).map (fun p => (uni :: p.1, p.2))
                      | _, _, _, _ => none
                    | _ => none
                  else (scanStringAux fuel cs3).map (fun p => (uni :: p.1, p.2))
                | _ => (scanStringAux fuel cs3).map (fun p => (uni :: p.1, p.2))
              else (scanStringAux fuel cs3).map (fun p => (uni :: p.1, p.2))
            | _, _, _, _ => none
          | _ => none
        else none
    else if c.toNat < 32 then none
    else (scanStringAux fuel cs).map (fun p => (c.toNat :: p.1, p.2))

/-- `py_scanstring` after the opening quote. -/
def scanString (cs : List Char) : Option (List Nat × List Char) :=
  scanStringAux (cs.length + 1) cs

/-- Match a literal character sequence (the tails of `null`, `true`,
`false`, `NaN`, `Infinity`). -/
def litMatch : List Char → List Char → Option (List Char)
  | [], cs => some cs
  | _ :: _, [] => none
  | p :: ps, c :: cs => if c = p then litMatch ps cs else none

/-- Maximal run of decimal digits. -/
def digitRun : List Char → List Char × List Char
  | c :: cs =>
    if isDigit c then
      let p := digitRun cs
      (c :: p.1, p.2)
    else ([], c :: cs)
  | [] => ([], [])

/-- Numeric value of a digit run. -/
def digitsVal (ds : List Char) : Nat :=
  ds.foldl (fun a c => a * 10 + (c.toNat - 48)) 0

/-- The optional fraction group of `NUMBER_RE` (`(\.\d+)?`): consumed
only when a dot is followed by at least one digit, otherwise the dot is
left for the caller. -/
def scanFrac : List Char → Bool × List Char
  | '.' :: c :: rest =>
    if isDigit c then (true, (digitRun (c :: rest)).2)
    else (false, '.' :: c :: rest)
  | cs => (false, cs)

/-- The optional exponent group of `NUMBER_RE` (`([eE][-+]?\d+)?`):
consumed only when complete, otherwise left for the caller. -/
def scanExp : List Char → Bool × List Char
  | e :: rest =>
    if e = 'e' ∨ e = 'E' then
      match rest with
      | s :: rest2 =>
        if s = '+' ∨ s = '-' then
          match rest2 with
          | d :: _ =>
            if isDigit d then (true, (digitRun rest2).2) else (false, e :: rest)
          | [] => (false, e :: rest)
        else if isDigit s then (true, (digitRun rest).2)
        else (false, e :: rest)
      | [] => (false, e :: rest)
    else (false, e :: rest)
  | [] => (false, [])

/-- Finish a number token after its integer part: with a fraction or
exponent the value is a float (`jnum`), otherwise the signed integer. -/
def finishNum (neg : Bool) (intDigits : List Char) (rest : List Char) :
    JValue × List Char :=
  let fr := scanFrac rest
  let ex := scanExp fr.2
  if fr.1 || ex.1 then (JValue.jnum, ex.2)
  else
    let n : Int := Int.ofNat (digitsVal intDigits)
    (JValue.jint (if neg then -n else n), ex.2)

/-- The `NUMBER_RE` match of the scanner
(`(-?(?:0|[1-9]\d*))(\.\d+)?([eE][-+]?\d+)?`): an optional minus, then
either a lone zero or a nonzero digit followed by digits — so a leading
zero ends the integer part and any following digit is left over, failing
the enclosing parse exactly as Python does on `01` — then optional
fraction and exponent. -/
def scanNumber (cs : List Char) : Option (JValue × List Char) :=
  let sgn : Bool × List Char :=
    match cs with
    | '-' :: rest => (true, rest)
    | _ => (false, cs)
  match sgn.2 with
  | c :: rest =>
    if c = '0' then some (finishNum sgn.1 ['0'] rest)
    else if isDigit c then
      let p := digitRun (c :: rest)
      some (finishNum sgn.1 p.1 p.2)
    else none
  | [] => none

/-- Which production the JSON scanner is asked for: a value, the member
list of an object (at the first key), or the element list of an array
(at the first element). -/
inductive PReq where
  | val
  | objMembers
  | arrElems

/-- The result of one scanner production. -/
inductive PRes where
  | v (value : JValue)
  | ms (members : List (List Nat × JValue))
  | es (elems : List JValue)

/-- The recursive core of Python's `scan_once`/`JSONObject`/`JSONArray`,
fuel-indexed so the recursion is structural (twice the input length plus
two always suffices: every fuel step either consumes a character or is
the single non-consuming array-element-to-value step, and two such steps
never follow each other).  Values: a string, an object (`{` ws `}` or
`{` ws members `}`), an array, `null`/`true`/`false`, `NaN`, `Infinity`,
a number, or `-Infinity` when the number match fails after `-`.  Object
members: a quoted key, ws, `:`, ws, a value, ws, then `}` or `,` ws and
the next key (anything else fails, as the scanner raises).  Array
elements: a value, ws, then `]` or `,` ws and the next element. -/
def parseJ : Nat → PReq → List Char → Option (PRes × List Char)
  | 0, _, _ => none
  | fuel + 1, PReq.val, cs =>
    match cs with
    | [] => none
    | c :: rest =>
      if c = '"' then
        (scanString rest).map (fun p => (PRes.v (JValue.jstr p.1), p.2))
      else if c = lbrace then
        match skipWs rest with
        | c2 :: rest2 =>
          if c2 = rbrace then some (PRes.v (JValue.jobj []), rest2)
          else
            match parseJ fuel PReq.objMembers (c2 :: rest2) with
            | some (PRes.ms members, rest3) => some (PRes.v (JValue.jobj members), rest3)
            | _ => none
        | [] => none
      else if c = '[' then
        match skipWs rest with
        | c2 :: rest2 =>
          if c2 = ']' then some (PRes.v (JValue.jarr []), rest2)
          else
            match parseJ fuel PReq.arrElems (c2 :: rest2) with
            | some (PRes.es elems, rest3) => some (PRes.v (JValue.jarr elems), rest3)
            | _ => none
        | [] => none
      else if c = 'n' then
        (litMatch ['u', 'l', 'l'] rest).map (fun r => (PRes.v JValue.jnull, r))
      else if c = 't' then
        (litMatch ['r', 'u', 'e'] rest).map (fun r => (PRes.v (JValue.jbool true), r))
      else if c = 'f' then
        (litMatch ['a', 'l', 's', 'e'] rest).map (fun r => (PRes.v (JValue.jbool false), r))
      else if c = 'N' then
        (litMatch ['a', 'N'] rest).map (fun r => (PRes.v JValue.jnum, r))
      else if c = 'I' then
        (litMatch ['n', 'f', 'i', 'n', 'i', 't', 'y'] rest).map
          (fun r => (PRes.v JValue.jnum, r))
      else if c = '-' then
        match scanNumber (c :: rest) with
        | some p => some (PRes.v p.1, p.2)
        | none =>
          (litMatch ['I', 'n', 'f', 'i', 'n', 'i', 't', 'y'] rest).map
            (fun r => (PRes.v JValue.jnum, r))
      else if isDigit c then
        (scanNumber (c :: rest)).map (fun p => (PRes.v p.1, p.2))
      else none
  | fuel + 1, PReq.objMembers, cs =>
    match cs with
    | [] => none
    | c :: rest =>
      if c = '"' then
        match scanString rest with
        | none => none
        | some (key, rest2) =>
          match skipWs rest2 with
          | c2 :: rest3 =>
            if c2 = ':' then
              match parseJ fuel PReq.val (skipWs rest3) with
              | some (PRes.v v, rest4) =>
                match skipWs rest4 with
                | c3 :: rest5 =>
                  if c3 = rbrace then some (PRes.ms [(key, v)], rest5)
                  else if c3 = ',' then
                    match parseJ fuel PReq.objMembers (skipWs rest5) with
                    | some (PRes.ms ms, rest6) => some (PRes.ms ((key, v) :: ms), rest6)
                    | _ => none
                  else none
                | [] => none
              | _ => none
            else none
          | [] => none
      else none
  | fuel + 1, PReq.arrElems, cs =>
    match parseJ fuel PReq.val cs with
    | some (PRes.v v, rest) =>
      match skipWs rest with
      | c :: rest2 =>
        if c = ']' then some (PRes.es [v], rest2)
        else if c = ',' then
          match parseJ fuel PReq.arrElems (skipWs rest2) with
          | some (PRes.es es, rest3) => some (PRes.es (v :: es), rest3)
          | _ => none
        else none
      | [] => none
    | _ => none

/-- Python's `json.loads`: skip leading whitespace, scan one value, skip
trailing whitespace, and require the input to be exhausted ("Extra data"
otherwise); `none` models a raised `json.JSONDecodeError`. -/
def json_loads_py (cs : List Char) : Option JValue :=
  let cs1 := skipWs cs
  match parseJ (2 * cs1.length + 2) PReq.val cs1 with
  | some (PRes.v v, rest) => if skipWs rest = [] then some v else none
  | _ => none

/-- Dictionary lookup on a parsed object, with Python's
last-duplicate-wins semantics. -/
def jLookupU (members : List (List Nat × JValue)) (key : List Nat) : Option JValue :=
  match members.reverse.find? (fun m => m.1 == key) with
  | some m => some m.2
  | none => none

/-- Whether a code-point list starts with the given pattern. -/
def startsWithU : List Nat → List Nat → Bool
  | [], _ => true
  | _ :: _, [] => false
  | p :: ps, x :: xs => p == x && startsWithU ps xs

/-- Whether a code-point list contains the given pattern as a contiguous
subsequence (Python's substring containment `key in s`). -/
def containsSub (pat : List Nat) : List Nat → Bool
  | [] => startsWithU pat []
  | x :: xs => startsWithU pat (x :: xs) || containsSub pat xs

/-- Python's `key in response` on a parsed JSON value: key membership for
a dict, element equality for a list (a string only ever equals a string),
substring containment for a string, and a raised `TypeError` for numbers,
booleans and null (not iterable). -/
def pyContains (key : List Nat) : JValue → Except String Bool
  | JValue.jobj ms => Except.ok (ms.any (fun m => m.1 == key))
  | JValue.jarr es => Except.ok (es.any (fun e =>
      match e with
      | JValue.jstr s => s == key
      | _ => false))
  | JValue.jstr s => Except.ok (containsSub key s)
  | _ => Except.error "TypeError"

/-- Python's `response[key]` with a string key: dict lookup (`KeyError`
when absent — unreachable in the handler, which subscripts only after a
successful membership test), and a raised `TypeError` for every other
type (list and string indices must be integers; numbers, booleans and
null are not subscriptable). -/
def pySubscript (key : List Nat) : JValue → Except String JValue
  | JValue.jobj ms =>
    match jLookupU ms key with
    | some v => Except.ok v
    | none => Except.error "KeyError"
  | _ => Except.error "TypeError"

/-- The callback dispatch of `_notification_handler` over full JSON
values: the registered callback receives the two extracted values
whatever their types (the `%d` debug log on non-integers is swallowed by
the logging module and does not raise), and is modelled as either
completing with a replacement snapshot or raising. -/
def handlerCallFull :
    Option (JValue → JValue → Except String (Option (JValue × JValue))) →
    Option (JValue × JValue) → JValue → JValue →
    Except String (Option (JValue × JValue))
  | none, snap, _, _ => Except.ok snap
  | some f, _, sv, mv => f sv mv

/-- The post-parse step of `_notification_handler` over the faithful
`json.loads` model: a parse failure was caught by the inner
`except json.JSONDecodeError` (log only); then
`"state" in response and "mode" in response` with short-circuit, then the
two subscripts, then the callback; a `TypeError` from the membership test
or subscript on a non-dict response escapes the inner handler. -/
def handlerKeysFull
    (cb : Option (JValue → JValue → Except String (Option (JValue × JValue))))
    (snap : Option (JValue × JValue)) :
    Option JValue → Except String (Option (JValue × JValue))
  | none => Except.ok snap
  | some response =>
    match pyContains stateKeyU response with
    | Except.error e => Except.error e
    | Except.ok false => Except.ok snap
    | Except.ok true =>
      match pyContains modeKeyU response with
      | Except.error e => Except.error e
      | Except.ok false => Except.ok snap
      | Except.ok true =>
        match pySubscript stateKeyU response with
        | Except.error e => Except.error e
        | Except.ok sv =>
          match pySubscript modeKeyU response with
          | Except.error e => Except.error e
          | Except.ok mv => handlerCallFull cb snap sv mv

/-- The decode step of `_notification_handler` over the faithful model:
a UTF-8 decode failure raises, anything else is truncated at the first
`*` and parsed. -/
def handlerDecodedFull
    (cb : Option (JValue → JValue → Except String (Option (JValue × JValue))))
    (snap : Option (JValue × JValue)) :
    Option (List Char) → Except String (Option (JValue × JValue))
  | none => Except.error "UnicodeDecodeError"
  | some msg => handlerKeysFull cb snap (json_loads_py (splitStar msg))

/-- The body of `_notification_handler` over the faithful `json.loads`
model, without the outer catch-all. -/
def handlerBodyFull
    (cb : Option (JValue → JValue → Except String (Option (JValue × JValue))))
    (snap : Option (JValue × JValue)) (raw : List Nat) :
    Except String (Option (JValue × JValue)) :=
  handlerDecodedFull cb snap (utf8Decode raw)

/-- The outer `try/except Exception` of `_notification_handler` over full
JSON values. -/
def handlerCatchFull (snap : Option (JValue × JValue)) :
    Except String (Option (JValue × JValue)) → Option (JValue × JValue)
  | Except.ok snap2 => snap2
  | Except.error _ => snap

/-- `GateControllerBLE._notification_handler` over the faithful
`json.loads` model. -/
def notification_handler_full
    (cb : Option (JValue → JValue → Except String (Option (JValue × JValue))))
    (snap : Option (JValue × JValue)) (raw : List Nat) :
    Option (JValue × JValue) :=
  handlerCatchFull snap (handlerBodyFull cb snap raw)

/-- The coordinator's `_state_update_callback` over full JSON values:
replaces the snapshot with whatever pair arrived and completes. -/
def state_update_cb_full :
    JValue → JValue → Except String (Option (JValue × JValue)) :=
  fun sv mv => Except.ok (some (sv, mv))

/-- `is_connected` never touches the write log. -/
theorem is_connected_writes (tr : Transport) (s : BLEState) :
    (is_connected tr s).2.writes = s.writes := by
  unfold is_connected
  split <;> rfl

/-- A `send_command` from a live connection with a willing transport
succeeds and appends exactly the encoded frame to the write log. -/
theorem send_command_ready (tr : Transport) (c : Int) (s : BLEState)
    (h1 : (is_connected tr s).1 = true) (h2 : tr.writeOk = true) :
    (send_command tr c s).1 = true ∧
    (send_command tr c s).2.writes =
      s.writes ++ [(cmdFrame c).map Char.toNat] := by
  unfold send_command
  simp [h1, h2, sleep, is_connected_writes]

/-- C3: for every named operation with a valid argument — open, stop,
close, getState, and setWorkingMode(m) for m in 1..6 — a successful send
writes exactly one frame to the outbound characteristic, namely the UTF-8
bytes of the JSON object with the single member "cmd" mapped to the fixed
code (Open=1, StopMiddle=2, Close=3, SetMode 1..6 = 11..16, GetState=17),
followed by the sentinel `*` and a newline, with no other fields. -/
theorem c3_command_frames (tr : Transport) (s : BLEState)
    (h1 : (is_connected tr s).1 = true) (h2 : tr.writeOk = true) :
    ((open_gate tr s).1 = true ∧
      (open_gate tr s).2.writes = s.writes ++ [strBytes "\x7b\"cmd\": 1\x7d*\n"]) ∧
    ((stop_gate tr s).1 = true ∧
      (stop_gate tr s).2.writes = s.writes ++ [strBytes "\x7b\"cmd\": 2\x7d*\n"]) ∧
    ((close_gate tr s).1 = true ∧
      (close_gate tr s).2.writes = s.writes ++ [strBytes "\x7b\"cmd\": 3\x7d*\n"]) ∧
    ((get_state tr s).1 = true ∧
      (get_state tr s).2.writes = s.writes ++ [strBytes "\x7b\"cmd\": 17\x7d*\n"]) ∧
    ((set_working_mode tr 1 s).1 = true ∧
      (set_working_mode tr 1 s).2.writes = s.writes ++ [strBytes "\x7b\"cmd\": 11\x7d*\n"]) ∧
    ((set_working_mode tr 2 s).1 = true ∧
      (set_working_mode tr 2 s).2.writes = s.writes ++ [strBytes "\x7b\"cmd\": 12\x7d*\n"]) ∧
    ((set_working_mode tr 3 s).1 = true ∧
      (set_working_mode tr 3 s).2.writes = s.writes ++ [strBytes "\x7b\"cmd\": 13\x7d*\n"]) ∧
    ((set_working_mode tr 4 s).1 = true ∧
      (set_working_mode tr 4 s).2.writes = s.writes ++ [strBytes "\x7b\"cmd\": 14\x7d*\n"]) ∧
    ((set_working_mode tr 5 s).1 = true ∧
      (set_working_mode tr 5 s).2.writes = s.writes ++ [strBytes "\x7b\"cmd\": 15\x7d*\n"]) ∧
    ((set_working_mode tr 6 s).1 = true ∧
      (set_working_mode tr 6 s).2.writes = s.writes ++ [strBytes "\x7b\"cmd\": 16\x7d*\n"]) := by
  have H : ∀ c : Int, (send_command tr c s).1 = true ∧
      (send_command tr c s).2.writes = s.writes ++ [(cmdFrame c).map Char.toNat] :=
    fun c => send_command_ready tr c s h1 h2
  have W : ∀ c : Int, ∀ bs : List Nat, (cmdFrame c).map Char.toNat = bs →
      (send_command tr c s).2.writes = s.writes ++ [bs] := by
    intro c bs hbs
    rw [(H c).2, hbs]
  exact ⟨⟨(H 1).1, W 1 _ (by decide)⟩, ⟨(H 2).1, W 2 _ (by decide)⟩,
    ⟨(H 3).1, W 3 _ (by decide)⟩, ⟨(H 17).1, W 17 _ (by decide)⟩,
    ⟨(H 11).1, W 11 _ (by decide)⟩, ⟨(H 12).1, W 12 _ (by decide)⟩,
    ⟨(H 13).1, W 13 _ (by decide)⟩, ⟨(H 14).1, W 14 _ (by decide)⟩,
    ⟨(H 15).1, W 15 _ (by decide)⟩, ⟨(H 16).1, W 16 _ (by decide)⟩⟩

/-- Witness for C3 at the default transport and a freshly connected state. -/
theorem c3_command_frames_witness :
    (is_connected ({} : Transport) readyS).1 = true ∧
    ({} : Transport).writeOk = true ∧
    (open_gate {} readyS).2.writes = readyS.writes ++ [strBytes "\x7b\"cmd\": 1\x7d*\n"] :=
  ⟨rfl, rfl, (c3_command_frames {} readyS rfl rfl).1.2⟩

/-- C6: sendCommand invoked when the connection state is not Ready fails
(returns None, modelled as `false`), clears the connected flag, and
performs no transport write at all — the write log is unchanged — for
every command code. -/
theorem c6_send_not_ready (tr : Transport) (c : Int) (s : BLEState)
    (h : (is_connected tr s).1 = false) :
    (send_command tr c s).1 = false ∧
    (send_command tr c s).2.writes = s.writes ∧
    (send_command tr c s).2.connected = false := by
  unfold send_command
  simp [h, is_connected_writes]

/-- Witness for C6 at a disconnected initial state. -/
theorem c6_send_not_ready_witness :
    (is_connected ({} : Transport) ({} : BLEState)).1 = false ∧
    ((send_command ({} : Transport) 5 ({} : BLEState)).1 = false ∧
     (send_command ({} : Transport) 5 ({} : BLEState)).2.writes = ({} : BLEState).writes ∧
     (send_command ({} : Transport) 5 ({} : BLEState)).2.connected = false) :=
  ⟨rfl, c6_send_not_ready {} 5 {} rfl⟩

/-- C7: for every mode outside 1..6, setWorkingMode fails (returns None,
modelled as `false`) before any I/O occurs — the client state, including
the write log and the record of transport interactions, is completely
unchanged — regardless of connection state. -/
theorem c7_invalid_mode (tr : Transport) (m : Int) (s : BLEState)
    (h : m < 1 ∨ 6 < m) :
    set_working_mode tr m s = (false, s) := by
  have hm : mode_commands m = none := by
    unfold mode_commands
    rw [if_neg (by omega), if_neg (by omega), if_neg (by omega),
      if_neg (by omega), if_neg (by omega), if_neg (by omega)]
  unfold set_working_mode
  rw [hm]

/-- Witness for C7 at mode 7. -/
theorem c7_invalid_mode_witness :
    ((7 : Int) < 1 ∨ 6 < (7 : Int)) ∧
    set_working_mode ({} : Transport) 7 readyS = (false, readyS) :=
  ⟨by decide, c7_invalid_mode {} 7 readyS (by decide)⟩

/-- C1: after the transport-level connection succeeds, connect sleeps a
fixed 0.6 s settle delay, then makes up to 10 probe attempts spaced 0.5 s
apart, each probing whether the required characteristics are enumerable.
With a transport that becomes available at probe N < 10, it stops at the
first successful probe (N + 1 probes, sleeps 600 then N times 500) and
connect succeeds, subscribing exactly once.  With a transport that never
becomes available, all 10 probes run (sleeps 600 then 9 times 500), a
warning is logged, and connect still succeeds and subscribes exactly
once. -/
theorem c1_security_wait :
    (∀ N : Nat, N < 10 →
      (connect (trEarly N) {}).1 = true ∧
      (connect (trEarly N) {}).2.subscribed = 1 ∧
      (connect (trEarly N) {}).2.probes = N + 1 ∧
      (connect (trEarly N) {}).2.sleeps = 600 :: List.replicate N 500) ∧
    ((connect trNever {}).1 = true ∧
     (connect trNever {}).2.subscribed = 1 ∧
     (connect trNever {}).2.probes = 10 ∧
     (connect trNever {}).2.sleeps = 600 :: List.replicate 9 500) := by
  constructor
  · intro N hN
    interval_cases N <;> exact ⟨rfl, rfl, rfl, by decide⟩
  · exact ⟨rfl, rfl, rfl, by decide⟩

/-- Witness for C1 at N = 3. -/
theorem c1_security_wait_witness :
    3 < 10 ∧
    ((connect (trEarly 3) {}).1 = true ∧
     (connect (trEarly 3) {}).2.subscribed = 1 ∧
     (connect (trEarly 3) {}).2.probes = 3 + 1 ∧
     (connect (trEarly 3) {}).2.sleeps = 600 :: List.replicate 3 500) :=
  ⟨by decide, c1_security_wait.1 3 (by decide)⟩

/-- C2: if transport connectivity is lost at any point during the
security-readiness wait (the wait performs connectivity queries 0 through
11: the entry check, one check per attempt, and the final check), connect
as a whole fails, no subscription happens, and the state is left
Disconnected: the `_connected` flag is down and `isConnected` reports
`false` afterwards. -/
theorem c2_security_lost (k : Nat) (h : k ≤ 11) :
    (connect (trLost k) {}).1 = false ∧
    (connect (trLost k) {}).2.connected = false ∧
    (connect (trLost k) {}).2.subscribed = 0 ∧
    (is_connected (trLost k) (connect (trLost k) {}).2).1 = false := by
  interval_cases k <;> exact ⟨rfl, rfl, rfl, rfl⟩

/-- Witness for C2 with the link dying at the fifth connectivity query. -/
theorem c2_security_lost_witness :
    5 ≤ 11 ∧
    ((connect (trLost 5) {}).1 = false ∧
     (connect (trLost 5) {}).2.connected = false ∧
     (connect (trLost 5) {}).2.subscribed = 0 ∧
     (is_connected (trLost 5) (connect (trLost 5) {}).2).1 = false) :=
  ⟨by decide, c2_security_lost 5 (by decide)⟩

/-- `disconnect` entered without a client or with the `_connected` flag
down skips its whole body and leaves the state untouched. -/
theorem disconnect_inactive (tr : Transport) (s : BLEState)
    (h : (s.hasClient && s.connected) = false) : disconnect tr s = s := by
  simp [disconnect, h]

/-- `disconnect` entered with a client and the `_connected` flag set always
reaches the `finally` clause: the flag is cleared and the client nulled. -/
theorem disconnect_active (tr : Transport) (s : BLEState)
    (h : (s.hasClient && s.connected) = true) :
    (disconnect tr s).connected = false ∧ (disconnect tr s).hasClient = false := by
  simp [disconnect, h]

/-- `disconnect` is idempotent as a state transformer. -/
theorem disconnect_idem (tr : Transport) (s : BLEState) :
    disconnect tr (disconnect tr s) = disconnect tr s := by
  by_cases h : (s.hasClient && s.connected) = true
  · apply disconnect_inactive
    have ha := disconnect_active tr s h
    simp [ha.1, ha.2]
  · have hh : (s.hasClient && s.connected) = false := by
      simpa using h
    rw [disconnect_inactive tr s hh]
    exact disconnect_inactive tr s hh

/-- C8 counterexample: a connect attempt that failed during the security
wait leaves a reachable state whose client reference is still set while
the `_connected` flag is down; `disconnect` on that state is a no-op and
does NOT release (null) the transport session reference, refuting the
claim that disconnect always ends with the reference released. -/
theorem c8_counterexample :
    ((connect (trLost 5) {}).2).hasClient = true ∧
    ((connect (trLost 5) {}).2).connected = false ∧
    (disconnect (trLost 5) (connect (trLost 5) {}).2).hasClient = true :=
  ⟨rfl, rfl, rfl⟩

/-- C8 amended: disconnect is idempotent and never propagates teardown
errors (it is a total state transformer for every transport, including
ones whose teardown steps fail).  Whenever it is entered with a live
client reference and the connected flag set it always ends Disconnected
with the client reference nulled, even if the unsubscribe or
transport-close steps themselves error.  If entered with the connected
flag already down it is a no-op: the state stays as it was — isConnected
still reports false, but a stale client reference left by a failed
connect is not nulled. -/
theorem c8_disconnect_amended (tr : Transport) (s : BLEState) :
    disconnect tr (disconnect tr s) = disconnect tr s ∧
    (s.hasClient = true → s.connected = true →
      (disconnect tr s).connected = false ∧ (disconnect tr s).hasClient = false) ∧
    (s.connected = false →
      disconnect tr s = s ∧ (is_connected tr (disconnect tr s)).1 = false) := by
  refine ⟨disconnect_idem tr s, ?_, ?_⟩
  · intro h1 h2
    exact disconnect_active tr s (by simp [h1, h2])
  · intro h
    have hs : disconnect tr s = s := disconnect_inactive tr s (by simp [h])
    refine ⟨hs, ?_⟩
    rw [hs]
    simp [is_connected, h]

/-- Witness for C8 amended, at a connected state and at a disconnected
one. -/
theorem c8_disconnect_amended_witness :
    (disconnect ({} : Transport) (disconnect {} readyS) = disconnect {} readyS) ∧
    ((disconnect ({} : Transport) readyS).connected = false ∧
     (disconnect ({} : Transport) readyS).hasClient = false) ∧
    (disconnect ({} : Transport) {} = {} ∧
     (is_connected {} (disconnect ({} : Transport) {})).1 = false) :=
  ⟨(c8_disconnect_amended {} readyS).1,
   (c8_disconnect_amended {} readyS).2.1 rfl rfl,
   (c8_disconnect_amended {} {}).2.2 rfl⟩

/-- The code point of an ASCII digit character. -/
theorem digitChar_toNat (d : Nat) (h : d < 10) :
    (Char.ofNat (48 + d)).toNat = 48 + d := by
  interval_cases d <;> decide

/-- `natCharsAux` does not depend on the fuel once the fuel exceeds the
number. -/
theorem natCharsAux_irrel : ∀ f1 f2 n : Nat, n < f1 → n < f2 →
    natCharsAux f1 n = natCharsAux f2 n := by
  intro f1
  induction f1 with
  | zero => intro f2 n h1 h2; omega
  | succ g1 ih =>
    intro f2 n h1 h2
    cases f2 with
    | zero => omega
    | succ g2 =>
      by_cases hn : n < 10
      · simp [natCharsAux, hn]
      · simp only [natCharsAux, hn, if_false]
        rw [ih g2 (n / 10) (by omega) (by omega)]

/-- The defining recursion of `natChars`, fuel eliminated. -/
theorem natChars_eq (n : Nat) :
    natChars n = if n < 10 then [Char.ofNat (48 + n)]
      else natChars (n / 10) ++ [Char.ofNat (48 + n % 10)] := by
  by_cases hn : n < 10
  · rw [if_pos hn]
    unfold natChars natCharsAux
    rw [if_pos hn]
  · rw [if_neg hn]
    unfold natChars
    have step : natCharsAux (n + 1) n =
        natCharsAux n (n / 10) ++ [Char.ofNat (48 + n % 10)] := by
      simp only [natCharsAux]
      rw [if_neg hn]
    rw [step, natCharsAux_irrel n (n / 10 + 1) (n / 10) (by omega) (by omega)]

/-- A decimal rendering is never empty. -/
theorem natChars_ne_nil (n : Nat) : natChars n ≠ [] := by
  rw [natChars_eq n]
  split <;> simp

/-- Every character of a decimal rendering is an ASCII digit. -/
theorem natChars_bounds (n : Nat) :
    ∀ c ∈ natChars n, 48 ≤ c.toNat ∧ c.toNat ≤ 57 := by
  induction n using Nat.strong_induction_on with
  | _ n ih =>
    intro c hc
    rw [natChars_eq n] at hc
    by_cases hn : n < 10
    · rw [if_pos hn] at hc
      simp only [List.mem_singleton] at hc
      subst hc
      rw [digitChar_toNat n hn]
      omega
    · rw [if_neg hn] at hc
      rcases List.mem_append.mp hc with h | h
      · exact ih (n / 10) (by omega) c h
      · simp only [List.mem_singleton] at h
        subst h
        rw [digitChar_toNat (n % 10) (by omega)]
        omega

/-- Every character of a decimal rendering satisfies `isDigit`. -/
theorem natChars_all_digit (n : Nat) : ∀ c ∈ natChars n, isDigit c = true := by
  intro c hc
  have h := natChars_bounds n c hc
  simp only [isDigit, Bool.and_eq_true, decide_eq_true_eq]
  omega

/-- Every character of an integer rendering is a minus sign or a digit. -/
theorem intChars_bounds (v : Int) :
    ∀ c ∈ intChars v, 45 ≤ c.toNat ∧ c.toNat ≤ 57 := by
  intro c hc
  unfold intChars at hc
  split at hc
  · rcases List.mem_cons.mp hc with rfl | h
    · exact ⟨by decide, by decide⟩
    · have := natChars_bounds _ c h
      omega
  · have := natChars_bounds _ c hc
    omega

/-- The digit-accumulation fold over a decimal rendering recovers the
number (shifted by the accumulator). -/
theorem foldl_natChars (n : Nat) : ∀ acc : Nat,
    (natChars n).foldl (fun a c => a * 10 + (c.toNat - 48)) acc =
      acc * 10 ^ (natChars n).length + n := by
  induction n using Nat.strong_induction_on with
  | _ n ih =>
    intro acc
    rw [natChars_eq n]
    by_cases hn : n < 10
    · rw [if_pos hn]
      simp only [List.foldl_cons, List.foldl_nil, List.length_singleton]
      rw [digitChar_toNat n hn]
      simp [pow_one]
    · rw [if_neg hn]
      rw [List.foldl_append, List.length_append]
      simp only [List.foldl_cons, List.foldl_nil, List.length_singleton]
      rw [ih (n / 10) (by omega) acc]
      rw [digitChar_toNat (n % 10) (by omega)]
      rw [pow_succ]
      generalize (10 : Nat) ^ (natChars (n / 10)).length = P
      have h10 : 10 * (n / 10) + n % 10 = n := Nat.div_add_mod n 10
      ring_nf
      omega

/-- `parseDigits` consumes exactly a run of digits and folds their
value. -/
theorem parseDigits_run (ds : List Char) : ∀ (rest : List Char) (acc : Nat),
    (∀ c ∈ ds, isDigit c = true) → startsNondigit rest = true →
    parseDigits (ds ++ rest) acc =
      (ds.foldl (fun a c => a * 10 + (c.toNat - 48)) acc, rest) := by
  induction ds with
  | nil =>
    intro rest acc _ hrest
    cases rest with
    | nil => rfl
    | cons c cs =>
      have hc : isDigit c = false := by
        simpa [startsNondigit] using hrest
      simp [parseDigits, hc]
  | cons d ds ih =>
    intro rest acc hds hrest
    have hd : isDigit d = true := hds d (by simp)
    simp only [List.cons_append, parseDigits, hd, if_true, List.foldl_cons]
    exact ih rest _ (fun c hc => hds c (by simp [hc])) hrest

/-- `parseDigits` run over a decimal rendering recovers the number. -/
theorem parseDigits_natChars (n : Nat) (rest : List Char)
    (hrest : startsNondigit rest = true) :
    parseDigits (natChars n ++ rest) 0 = (n, rest) := by
  rw [parseDigits_run (natChars n) rest 0 (natChars_all_digit n) hrest]
  rw [foldl_natChars n 0]
  simp

/-- `parseIntTok` over an integer rendering recovers the integer. -/
theorem parseIntTok_intChars (v : Int) (rest : List Char)
    (hrest : startsNondigit rest = true) :
    parseIntTok (intChars v ++ rest) = some (v, rest) := by
  by_cases hv : v < 0
  · rw [intChars, if_pos hv]
    obtain ⟨c, cs, hcons⟩ := List.exists_cons_of_ne_nil (natChars_ne_nil v.natAbs)
    have hcdig : isDigit c = true := natChars_all_digit v.natAbs c (by rw [hcons]; simp)
    rw [hcons]
    simp only [List.cons_append, parseIntTok, if_pos rfl]
    rw [if_pos hcdig]
    rw [← List.cons_append, ← hcons, parseDigits_natChars v.natAbs rest hrest]
    have hva : -((v.natAbs : Nat) : Int) = v := by omega
    simp only [hva]
    simp
  · rw [intChars, if_neg hv]
    obtain ⟨c, cs, hcons⟩ := List.exists_cons_of_ne_nil (natChars_ne_nil v.natAbs)
    have hcdig : isDigit c = true := natChars_all_digit v.natAbs c (by rw [hcons]; simp)
    have hbound := natChars_bounds v.natAbs c (by rw [hcons]; simp)
    have hcne : ¬(c = '-') := by
      intro hh
      rw [hh] at hbound
      exact absurd hbound (by decide)
    rw [hcons]
    simp only [List.cons_append, parseIntTok]
    rw [if_neg hcne, if_pos hcdig]
    rw [← List.cons_append, ← hcons, parseDigits_natChars v.natAbs rest hrest]
    have hva : ((v.natAbs : Nat) : Int) = v := by omega
    simp only [hva]

/-- `skipWs` is the identity on a list starting with a printable
character (code point 34 or above). -/
theorem skipWs_cons (c : Char) (l : List Char) (h : 34 ≤ c.toNat) :
    skipWs (c :: l) = c :: l := by
  have h1 : ¬(c = ' ') := fun hh => absurd (hh ▸ h) (by decide)
  have h2 : ¬(c = '\t') := fun hh => absurd (hh ▸ h) (by decide)
  have h3 : ¬(c = '\n') := fun hh => absurd (hh ▸ h) (by decide)
  have h4 : ¬(c = '\r') := fun hh => absurd (hh ▸ h) (by decide)
  simp [skipWs, h1, h2, h3, h4]

/-- `skipWs` is the identity on an integer rendering followed by
anything. -/
theorem skipWs_intChars (v : Int) (rest : List Char) :
    skipWs (intChars v ++ rest) = intChars v ++ rest := by
  obtain ⟨c, cs, hcons⟩ : ∃ c cs, intChars v = c :: cs := by
    unfold intChars
    split
    · exact ⟨_, _, rfl⟩
    · exact List.exists_cons_of_ne_nil (natChars_ne_nil _)
  have hb := intChars_bounds v c (by rw [hcons]; simp)
  rw [hcons, List.cons_append, skipWs_cons c _ (by omega)]

/-- Every character of a canonical state frame is printable ASCII and is
not the sentinel. -/
theorem frameChars_facts (st md : Int) :
    ∀ c ∈ frameChars st md, 34 ≤ c.toNat ∧ c.toNat ≤ 125 ∧ c.toNat ≠ 42 := by
  intro c hc
  simp only [frameChars, List.mem_append] at hc
  have hpre : ∀ x ∈ framePre, 34 ≤ x.toNat ∧ x.toNat ≤ 125 ∧ x.toNat ≠ 42 := by decide
  have hmid : ∀ x ∈ frameMid, 34 ≤ x.toNat ∧ x.toNat ≤ 125 ∧ x.toNat ≠ 42 := by decide
  rcases hc with hc | hc | hc | hc | hc
  · exact hpre c hc
  · have := intChars_bounds st c hc
    exact ⟨by omega, by omega, by omega⟩
  · exact hmid c hc
  · have := intChars_bounds md c hc
    exact ⟨by omega, by omega, by omega⟩
  · simp only [List.mem_singleton] at hc
    subst hc
    decide

/-- A character with a code point other than 42 is not the sentinel. -/
theorem ne_star_of_toNat {c : Char} (h : c.toNat ≠ 42) : (c != '*') = true :=
  bne_iff_ne.mpr (fun hh => (hh ▸ h) rfl)

/-- `takeWhile` passes over a prefix on which the predicate holds. -/
theorem takeWhile_append_all (p : Char → Bool) (xs ys : List Char)
    (h : ∀ c ∈ xs, p c = true) :
    (xs ++ ys).takeWhile p = xs ++ ys.takeWhile p := by
  induction xs with
  | nil => simp
  | cons x xs ih =>
    have hx := h x (by simp)
    simp [List.takeWhile_cons, hx, ih (fun c hc => h c (by simp [hc]))]

/-- Truncating at the sentinel drops everything from the first `*` onward
of a frame followed by a sentinel and arbitrary decoded trailing text. -/
theorem splitStar_frame_star (st md : Int) (tl : List Char) :
    splitStar (frameChars st md ++ '*' :: tl) = frameChars st md := by
  have hall : ∀ c ∈ frameChars st md, (c != '*') = true :=
    fun c hc => ne_star_of_toNat (frameChars_facts st md c hc).2.2
  rw [splitStar, takeWhile_append_all _ _ _ hall]
  simp [List.takeWhile_cons]

/-- A frame without a sentinel is left intact by the truncation step. -/
theorem splitStar_frame (st md : Int) :
    splitStar (frameChars st md) = frameChars st md := by
  have hall : ∀ c ∈ frameChars st md, (c != '*') = true :=
    fun c hc => ne_star_of_toNat (frameChars_facts st md c hc).2.2
  have h := takeWhile_append_all (fun c => c != '*') (frameChars st md) [] hall
  simpa [splitStar] using h

/-- Decoding an ASCII prefix steps through it byte by byte and leaves the
remainder to decode with its own exact fuel. -/
theorem utf8DecodeAux_ascii : ∀ (cs : List Char) (rest : List Nat),
    (∀ c ∈ cs, c.toNat ≤ 127) →
    utf8DecodeAux (cs.length + rest.length) (cs.map Char.toNat ++ rest) =
      (utf8DecodeAux rest.length rest).map (fun tl => cs ++ tl) := by
  intro cs
  induction cs with
  | nil =>
    intro rest _
    simp
  | cons c cs ih =>
    intro rest h
    have hc : c.toNat ≤ 127 := h c (by simp)
    have hfuel : (c :: cs).length + rest.length = (cs.length + rest.length) + 1 := by
      simp
      omega
    rw [hfuel]
    simp only [List.map_cons, List.cons_append]
    simp only [utf8DecodeAux]
    rw [if_pos hc]
    rw [ih rest (fun x hx => h x (List.mem_cons_of_mem c hx))]
    rw [Char.ofNat_toNat]
    rw [Option.map_map]
    rfl

/-- UTF-8 decoding of a pure-ASCII frame recovers its characters. -/
theorem utf8Decode_frame (st md : Int) :
    utf8Decode ((frameChars st md).map Char.toNat) = some (frameChars st md) := by
  unfold utf8Decode
  have h := utf8DecodeAux_ascii (frameChars st md) []
    (fun c hc => by have := (frameChars_facts st md c hc).2.1; omega)
  simp only [List.append_nil, List.length_nil, Nat.add_zero] at h
  rw [List.length_map, h]
  simp [utf8DecodeAux]

/-- UTF-8 decoding of a frame followed by the sentinel byte and any
decodable trailing bytes yields the frame, the sentinel and the decoded
trailing text. -/
theorem utf8Decode_frame_star (st md : Int) (trailing : List Nat) (tl : List Char)
    (hdec : utf8Decode trailing = some tl) :
    utf8Decode ((frameChars st md).map Char.toNat ++ 42 :: trailing) =
      some (frameChars st md ++ '*' :: tl) := by
  have hall : ∀ c ∈ frameChars st md ++ ['*'], c.toNat ≤ 127 := by
    intro c hc
    rcases List.mem_append.mp hc with h | h
    · have := (frameChars_facts st md c h).2.1
      omega
    · simp only [List.mem_singleton] at h
      subst h
      decide
  have h := utf8DecodeAux_ascii (frameChars st md ++ ['*']) trailing hall
  have hlist : (frameChars st md ++ ['*']).map Char.toNat ++ trailing =
      (frameChars st md).map Char.toNat ++ 42 :: trailing := by
    simp [List.map_append]
  have hlen : ((frameChars st md).map Char.toNat ++ 42 :: trailing).length =
      (frameChars st md ++ ['*']).length + trailing.length := by
    simp
    omega
  unfold utf8Decode at hdec ⊢
  rw [hlen, ← hlist, h, hdec]
  simp

/-- A frame is the opening brace followed by its member region. -/
theorem frameChars_cons (st md : Int) :
    frameChars st md = lbrace :: memT st md := by
  simp [frameChars, framePre, memT]

/-- A digit run stops at a comma. -/
theorem startsNondigit_comma (l : List Char) :
    startsNondigit (',' :: l) = true := rfl

/-- A digit run stops at a closing brace. -/
theorem startsNondigit_rbrace (l : List Char) :
    startsNondigit (rbrace :: l) = true := rfl

/-- The member parser on the member region of a frame yields exactly the
two key/value pairs, for any sufficient fuel. -/
theorem parseMembers_frame (st md : Int) (f : Nat) :
    parseMembers (f + 1 + 1) (memT st md) =
      some ([(stateKey, st), (modeKey, md)], [rbrace]) := by
  simp +decide only [memT, frameMid, parseMembers, parsePair, parseKey, parseKeyChars,
    skipWs, stateKey, modeKey, List.cons_append, List.nil_append, if_true, if_false,
    skipWs_intChars, parseIntTok_intChars, startsNondigit_comma, startsNondigit_rbrace,
    Option.map_some']

/-- `json.loads` on a canonical frame yields the object with exactly the
two integer members. -/
theorem json_loads_frame (st md : Int) :
    json_loads (frameChars st md) = some [(stateKey, st), (modeKey, md)] := by
  rw [frameChars_cons]
  rw [show json_loads (lbrace :: memT st md) =
    (match parseMembers (memT st md).length (memT st md) with
     | none => none
     | some mp =>
       match skipWs mp.2 with
       | c3 :: cs4 =>
         if c3 = rbrace then (if skipWs cs4 = [] then some mp.1 else none) else none
       | [] => none) from rfl]
  rw [show (memT st md).length = ((memT st md).length - 2) + 1 + 1 from by
    have h2 : 2 ≤ (memT st md).length := by simp [memT]
    omega]
  rw [parseMembers_frame st md ((memT st md).length - 2)]
  rfl

/-- Looking up "state" in the parsed frame object yields the state. -/
theorem jGet_frame_state (st md : Int) :
    jGet [(stateKey, st), (modeKey, md)] stateKey = some st := rfl

/-- Looking up "mode" in the parsed frame object yields the mode. -/
theorem jGet_frame_mode (st md : Int) :
    jGet [(stateKey, st), (modeKey, md)] modeKey = some md := rfl

/-- C4 counterexample: a frame carrying state 4 / mode 1, followed by the
sentinel and a trailing byte 0xFF that is not valid UTF-8, is dropped
whole — the UTF-8 decode of the entire payload happens before the
sentinel truncation and fails — so the snapshot stays `none` instead of
becoming (4, 1), refuting the claim for arbitrary trailing bytes. -/
theorem c4_counterexample :
    notification_handler (some state_update_cb) none
      ((frameChars 4 1).map Char.toNat ++ [42, 255]) = none ∧
    ¬(notification_handler (some state_update_cb) none
      ((frameChars 4 1).map Char.toNat ++ [42, 255]) = some (4, 1)) := by
  constructor
  · decide
  · decide

/-- C4 amended: for every integer pair (s, m), decoding a notification
frame containing the JSON object with state s and mode m — either alone,
or followed by the sentinel `*` and arbitrary trailing bytes that form a
valid UTF-8 sequence — yields exactly the pair (s, m): everything from
the first `*` onward is ignored and the two integers are passed through
with no range validation.  (Trailing bytes that are not valid UTF-8 make
the whole-payload decode fail before the sentinel is stripped, and the
frame is dropped.) -/
theorem c4_decode_amended (st md : Int) (snap : Option (Int × Int))
    (trailing : List Nat) (tl : List Char)
    (hdec : utf8Decode trailing = some tl) :
    notification_handler (some state_update_cb) snap
      ((frameChars st md).map Char.toNat) = some (st, md) ∧
    notification_handler (some state_update_cb) snap
      ((frameChars st md).map Char.toNat ++ 42 :: trailing) = some (st, md) := by
  constructor
  · simp only [notification_handler, handlerBody]
    rw [utf8Decode_frame st md]
    simp only [handlerDecoded]
    rw [splitStar_frame, json_loads_frame]
    simp only [handlerKeys, jGet_frame_state, jGet_frame_mode, handlerInvoke,
      handlerCall, state_update_cb, handlerCatch]
  · simp only [notification_handler, handlerBody]
    rw [utf8Decode_frame_star st md trailing tl hdec]
    simp only [handlerDecoded]
    rw [splitStar_frame_star, json_loads_frame]
    simp only [handlerKeys, jGet_frame_state, jGet_frame_mode, handlerInvoke,
      handlerCall, state_update_cb, handlerCatch]

/-- Witness for C4 amended at the out-of-range pair (7, 99) with trailing
text "gar" after the sentinel. -/
theorem c4_decode_amended_witness :
    utf8Decode [103, 97, 114] = some ['g', 'a', 'r'] ∧
    (notification_handler (some state_update_cb) none
        ((frameChars 7 99).map Char.toNat) = some (7, 99) ∧
      notification_handler (some state_update_cb) none
        ((frameChars 7 99).map Char.toNat ++ 42 :: [103, 97, 114]) = some (7, 99)) :=
  ⟨by decide, c4_decode_amended 7 99 none [103, 97, 114] ['g', 'a', 'r'] (by decide)⟩

/-- A key absent from a parsed object fails Python's dict membership
test. -/
theorem jLookupU_none_any (ms : List (List Nat × JValue)) (key : List Nat)
    (h : jLookupU ms key = none) : ms.any (fun m => m.1 == key) = false := by
  unfold jLookupU at h
  rcases hf : ms.reverse.find? (fun m => m.1 == key) with _ | m
  · have hall := List.find?_eq_none.mp hf
    by_contra hany
    have hany2 : ms.any (fun m => m.1 == key) = true := by
      revert hany
      cases ms.any (fun m => m.1 == key) <;> simp
    obtain ⟨x, hx, hpx⟩ := List.any_eq_true.mp hany2
    exact hall x (List.mem_reverse.mpr hx) hpx
  · rw [hf] at h
    exact absurd h (by simp)

/-- C5: over the faithful `json.loads` model, decoding a notification
whose payload (before the first `*`) is not valid JSON returns none and
does not raise — the inner except catches the parse error — and decoding
valid JSON that is an object missing the `state` key or the `mode` key
also returns none; in both cases the frame is swallowed (logged only)
and the previously held snapshot is unaffected. -/
theorem c5_malformed
    (cb : Option (JValue → JValue → Except String (Option (JValue × JValue))))
    (snap : Option (JValue × JValue)) (raw : List Nat) (msg : List Char)
    (hdec : utf8Decode raw = some msg) :
    (json_loads_py (splitStar msg) = none →
      handlerBodyFull cb snap raw = Except.ok snap ∧
      notification_handler_full cb snap raw = snap) ∧
    (∀ members, json_loads_py (splitStar msg) = some (JValue.jobj members) →
      (jLookupU members stateKeyU = none ∨ jLookupU members modeKeyU = none) →
      handlerBodyFull cb snap raw = Except.ok snap ∧
      notification_handler_full cb snap raw = snap) := by
  have hb : handlerBodyFull cb snap raw =
      handlerKeysFull cb snap (json_loads_py (splitStar msg)) := by
    simp only [handlerBodyFull, hdec, handlerDecodedFull]
  constructor
  · intro hj
    have hk : handlerBodyFull cb snap raw = Except.ok snap := by
      rw [hb, hj]
      rfl
    exact ⟨hk, by simp only [notification_handler_full, hk, handlerCatchFull]⟩
  · intro members hobj hmiss
    have hk : handlerBodyFull cb snap raw = Except.ok snap := by
      rw [hb, hobj]
      simp only [handlerKeysFull, pyContains]
      rcases hmiss with hm | hm
      · rw [jLookupU_none_any members stateKeyU hm]
      · cases hst : members.any (fun m => m.1 == stateKeyU) with
        | false => rfl
        | true => rw [jLookupU_none_any members modeKeyU hm]
    exact ⟨hk, by simp only [notification_handler_full, hk, handlerCatchFull]⟩

/-- Witness for C5: the leading-zero payload (invalid JSON) and an object
missing the mode key both leave the held snapshot untouched. -/
theorem c5_malformed_witness :
    utf8Decode [123, 34, 115, 116, 97, 116, 101, 34, 58, 48, 49, 125] =
      some [lbrace, '"', 's', 't', 'a', 't', 'e', '"', ':', '0', '1', rbrace] ∧
    json_loads_py
      (splitStar [lbrace, '"', 's', 't', 'a', 't', 'e', '"', ':', '0', '1', rbrace]) =
      none ∧
    (handlerBodyFull (some state_update_cb_full) (some (JValue.jint 4, JValue.jint 1))
        [123, 34, 115, 116, 97, 116, 101, 34, 58, 48, 49, 125] =
      Except.ok (some (JValue.jint 4, JValue.jint 1)) ∧
      notification_handler_full (some state_update_cb_full)
        (some (JValue.jint 4, JValue.jint 1))
        [123, 34, 115, 116, 97, 116, 101, 34, 58, 48, 49, 125] =
      some (JValue.jint 4, JValue.jint 1)) ∧
    json_loads_py
      (splitStar [lbrace, '"', 's', 't', 'a', 't', 'e', '"', ':', '1', rbrace]) =
      some (JValue.jobj [(stateKeyU, JValue.jint 1)]) ∧
    jLookupU [(stateKeyU, JValue.jint 1)] modeKeyU = none ∧
    (handlerBodyFull (some state_update_cb_full) (some (JValue.jint 4, JValue.jint 1))
        [123, 34, 115, 116, 97, 116, 101, 34, 58, 49, 125] =
      Except.ok (some (JValue.jint 4, JValue.jint 1)) ∧
      notification_handler_full (some state_update_cb_full)
        (some (JValue.jint 4, JValue.jint 1))
        [123, 34, 115, 116, 97, 116, 101, 34, 58, 49, 125] =
      some (JValue.jint 4, JValue.jint 1)) :=
  ⟨rfl, rfl,
   (c5_malformed (some state_update_cb_full) (some (JValue.jint 4, JValue.jint 1))
      [123, 34, 115, 116, 97, 116, 101, 34, 58, 48, 49, 125]
      [lbrace, '"', 's', 't', 'a', 't', 'e', '"', ':', '0', '1', rbrace] rfl).1 rfl,
   rfl, rfl,
   (c5_malformed (some state_update_cb_full) (some (JValue.jint 4, JValue.jint 1))
      [123, 34, 115, 116, 97, 116, 101, 34, 58, 49, 125]
      [lbrace, '"', 's', 't', 'a', 't', 'e', '"', ':', '1', rbrace] rfl).2
      [(stateKeyU, JValue.jint 1)] rfl (Or.inr rfl)⟩

/-- C10: the notification handler is total over all raw byte inputs: for
every byte sequence — valid UTF-8 or not — and every callback — raising
or not — the handler returns without propagating an exception, and its
result is the previous snapshot except in the single case where the
callback ran to completion, whose result is then returned.  In
particular, a UTF-8 decode failure or an escaped exception (such as the
callback raising) leaves the snapshot unchanged. -/
theorem c10_handler_total (cb : Option (Int → Int → Except String (Option (Int × Int))))
    (snap : Option (Int × Int)) (raw : List Nat) :
    (utf8Decode raw = none → notification_handler cb snap raw = snap) ∧
    (∀ e, handlerBody cb snap raw = Except.error e →
      notification_handler cb snap raw = snap) ∧
    (notification_handler cb snap raw = snap ∨
      ∃ f st md v, cb = some f ∧ f st md = Except.ok v ∧
        notification_handler cb snap raw = v) := by
  refine ⟨?_, ?_, ?_⟩
  · intro h
    simp only [notification_handler, handlerBody, h, handlerDecoded, handlerCatch]
  · intro e he
    simp only [notification_handler, he, handlerCatch]
  · rcases hu : utf8Decode raw with _ | msg
    · exact Or.inl (by
        simp only [notification_handler, handlerBody, hu, handlerDecoded, handlerCatch])
    · rcases hj : json_loads (splitStar msg) with _ | obj
      · exact Or.inl (by
          simp only [notification_handler, handlerBody, hu, handlerDecoded, hj,
            handlerKeys, handlerCatch])
      · rcases hs : jGet obj stateKey with _ | st
        · exact Or.inl (by
            simp only [notification_handler, handlerBody, hu, handlerDecoded, hj,
              handlerKeys, hs, handlerInvoke, handlerCatch])
        · rcases hm : jGet obj modeKey with _ | md
          · exact Or.inl (by
              simp only [notification_handler, handlerBody, hu, handlerDecoded, hj,
                handlerKeys, hs, hm, handlerInvoke, handlerCatch])
          · rcases cb with _ | f
            · exact Or.inl (by
                simp only [notification_handler, handlerBody, hu, handlerDecoded, hj,
                  handlerKeys, hs, hm, handlerInvoke, handlerCall, handlerCatch])
            · rcases hf : f st md with e | v
              · exact Or.inl (by
                  simp only [notification_handler, handlerBody, hu, handlerDecoded, hj,
                    handlerKeys, hs, hm, handlerInvoke, handlerCall, hf, handlerCatch])
              · refine Or.inr ⟨f, st, md, v, rfl, hf, ?_⟩
                simp only [notification_handler, handlerBody, hu, handlerDecoded, hj,
                  handlerKeys, hs, hm, handlerInvoke, handlerCall, hf, handlerCatch]

/-- Witness for C10 at the lone invalid byte 0xFF. -/
theorem c10_handler_total_witness :
    utf8Decode [255] = none ∧
    notification_handler (some state_update_cb) (some (3, 2)) [255] = some (3, 2) :=
  ⟨by decide, (c10_handler_total (some state_update_cb) (some (3, 2)) [255]).1 (by decide)⟩

/-- C9: a failing poll cycle surfaces as UpdateFailed to the refresh
caller and leaves the previously known snapshot exactly as it was (never
cleared); a successful poll returns whatever the latest snapshot is —
unchanged when no notification arrived during the cycle, and the last
asynchronously delivered pair when notifications arrived in the
interim. -/
theorem c9_poll (env : PollEnv) (connected : Bool) (d : Option (Int × Int)) :
    (((!connected && env.connectRaises) = true ∨ env.getStateRaises = true) →
      async_update_data env connected d = (Except.error "UpdateFailed", d)) ∧
    ((!connected && env.connectRaises) = false → env.getStateRaises = false →
      ((async_update_data env connected d).1 =
          Except.ok (async_update_data env connected d).2 ∧
        (env.interim = [] → (async_update_data env connected d).2 = d) ∧
        (∀ l p, env.interim = l ++ [p] →
          (async_update_data env connected d).2 = some p))) := by
  constructor
  · intro h
    rcases h with h | h
    · simp [async_update_data, h]
    · by_cases hc : (!connected && env.connectRaises) = true
      · simp [async_update_data, hc]
      · simp [async_update_data, hc, h]
  · intro h1 h2
    refine ⟨?_, ?_, ?_⟩
    · simp [async_update_data, h1, h2]
    · intro hi
      simp [async_update_data, h1, h2, hi]
    · intro l p hl
      simp [async_update_data, h1, h2, hl, state_update_callback]

/-- Witness for C9: a raising connect on a disconnected client fails the
poll and keeps the snapshot; a clean cycle with one interim notification
returns that notification. -/
theorem c9_poll_witness :
    (async_update_data { connectRaises := true } false (some (1, 2)) =
      (Except.error "UpdateFailed", some (1, 2))) ∧
    ((async_update_data { interim := [(2, 3)] } true (some (1, 2))).1 =
      Except.ok (async_update_data { interim := [(2, 3)] } true (some (1, 2))).2) ∧
    ((async_update_data { interim := [(2, 3)] } true (some (1, 2))).2 = some (2, 3)) :=
  ⟨(c9_poll { connectRaises := true } false (some (1, 2))).1 (Or.inl (by decide)),
   ((c9_poll { interim := [(2, 3)] } true (some (1, 2))).2 (by decide) (by decide)).1,
   ((c9_poll { interim := [(2, 3)] } true (some (1, 2))).2 (by decide) (by decide)).2.2
     [] (2, 3) rfl⟩

end NrfGate
